import Mathlib

/-!
# Formal model of the Plant Kiosk application (`plant.py`)

A shallow embedding of the cloud-ready kiosk edition found in `plant.py`:
the SQLAlchemy data model, the reminder engine (`ReminderEngine._tick`),
the notification subsystem (`Notifier`), the shop cart/checkout
(`ShopScreen.show_cart`), the cloud sync pull (`SyncManager.pull`),
JSON export/import (`AdminScreen.export_plants` / `import_plants`),
and the configuration bootstrap plus `__main__` startup.

Modelling conventions:
* Python `datetime` values (all UTC) are modelled as integer seconds since
  the Unix epoch; `dt.date()` is floor division by 86400 and
  `timedelta(days = k)` adds `k * 86400` seconds.
* Python `float` prices are modelled as exact rationals.
* Nullable database columns are `Option` fields; Python truthiness of a
  string is "non-empty", of an integer is "non-zero", and `None` is falsy.
* Network transports (SMTP, Twilio, webhook) are oracles supplied as
  explicit arguments: each is either an exception (`Except.error`) or a
  result value, exactly the two outcomes the code branches on.
* `barcode_number`, `barcode_image_path` and the `updated_at` timestamps
  are not modelled: no claim depends on them.
-/

namespace PlantKiosk

/-! ## Date rendering (`date.isoformat()`) -/

/-- Zero-padded two-digit decimal rendering, as in ISO-8601 month/day. -/
def pad2 (n : Nat) : String :=
  if n < 10 then "0" ++ toString n else toString n

/-- Zero-padded four-digit decimal rendering, as in ISO-8601 years. -/
def pad4 (n : Nat) : String :=
  if n < 10 then "000" ++ toString n
  else if n < 100 then "00" ++ toString n
  else if n < 1000 then "0" ++ toString n
  else toString n

/-- Civil date (year, month, day) from a day count since 1970-01-01,
    following the standard days-to-civil algorithm used by `datetime`. -/
def civilFromDays (z : Int) : Int × Nat × Nat :=
  let z' := z + 719468
  let era := z'.fdiv 146097
  let doe := (z' - era * 146097).toNat
  let yoe := (doe - doe / 1460 + doe / 36524 - doe / 146096) / 365
  let y := (yoe : Int) + era * 400
  let doy := doe - (365 * yoe + yoe / 4 - yoe / 100)
  let mp := (5 * doy + 2) / 153
  let d := doy - (153 * mp + 2) / 5 + 1
  let m := if mp < 10 then mp + 3 else mp - 9
  (if m ≤ 2 then y + 1 else y, m, d)

/-- Rendering of `date.isoformat()` for an epoch-day number: `YYYY-MM-DD`. -/
def isoDate (z : Int) : String :=
  let c := civilFromDays z
  (if c.1 < 0 then "-" ++ pad4 c.1.natAbs else pad4 c.1.toNat)
    ++ "-" ++ pad2 c.2.1 ++ "-" ++ pad2 c.2.2

/-- Projection `dt.date()` on an epoch-seconds datetime: the epoch-day number. -/
def dateOf (t : Int) : Int := t.fdiv 86400

/-! ## Data model (`Base` subclasses in `plant.py`) -/

/-- Model of `WateringSchedule`: `next_water` (nullable datetime), `frequency_days`. -/
structure WS where
  next_water : Option Int
  frequency_days : Int
deriving DecidableEq, Repr

/-- Model of `NutrientSchedule`: `next_feed` (nullable datetime), `frequency_days`,
    `nutrient_info`. -/
structure NS where
  next_feed : Option Int
  frequency_days : Int
  nutrient_info : Option String
deriving DecidableEq, Repr

/-- Model of `PlantKnowledge`: the one-to-one detail record (content fields only). -/
structure KnowledgeRec where
  scientific_name : Option String
  common_name : Option String
  water_requirements : Option String
  sunlight_requirements : Option String
  soil_type : Option String
  nutrient_recommendations_detailed : Option String
  growth_cycle_info : Option String
  pest_control_info : Option String
  detailed_profile : Option String
deriving DecidableEq, Repr

/-- Model of `Plant`: the catalogue record, together with its owned collections
    (`images` as their path strings, `knowledge`, and both schedule lists). -/
structure PlantRec where
  id : Nat
  name : String
  profile : Option String
  species : Option String
  plant_class : Option String
  genus : Option String
  recommended_nutrition : Option String
  safe_to_consume : Option Bool
  recommended_watering : Option String
  price : ℚ
  inventory : Int
  category : Option String
  images : List String
  knowledge : Option KnowledgeRec
  watering_schedules : List WS
  nutrient_schedules : List NS
deriving DecidableEq, Repr

/-! ## Reminder engine (`ReminderEngine._tick`, lines 384-411) -/

/-- Evaluation of `min((x for x in xs if x), default=None)` over nullable datetimes:
    `None` entries are filtered out (a datetime object is always truthy). -/
def minSome : List (Option Int) → Option Int
  | [] => none
  | none :: rest => minSome rest
  | some t :: rest =>
    match minSome rest with
    | none => some t
    | some u => some (min t u)

/-- The watering reminder line: `f"Water {p.name} today ({due_w.date().isoformat()})."` -/
def waterMsg (name : String) (d : Int) : String :=
  "Water " ++ name ++ " today (" ++ isoDate d ++ ")."

/-- The feeding reminder line: `f"Feed {p.name} today ({due_n.date().isoformat()})."` -/
def feedMsg (name : String) (d : Int) : String :=
  "Feed " ++ name ++ " today (" ++ isoDate d ++ ")."

/-- The per-schedule advance in the watering loop:
    `if ws.next_water == due_w and ws.frequency_days:
       ws.next_water = (due_w + timedelta(days=ws.frequency_days)).replace(tzinfo=utc)`. -/
def advanceWS (due : Int) (ws : WS) : WS :=
  if ws.next_water = some due ∧ ws.frequency_days ≠ 0 then
    { ws with next_water := some (due + ws.frequency_days * 86400) }
  else ws

/-- The per-schedule advance in the feeding loop (same shape as `advanceWS`). -/
def advanceNS (due : Int) (ns : NS) : NS :=
  if ns.next_feed = some due ∧ ns.frequency_days ≠ 0 then
    { ns with next_feed := some (due + ns.frequency_days * 86400) }
  else ns

/-- Result of one plant's slice of a tick: the updated plant, the watering
    reminder lines, and the feeding reminder lines (appended in that order). -/
structure TickPlantOut where
  plant : PlantRec
  wmsgs : List String
  nmsgs : List String
deriving DecidableEq, Repr

/-- The per-plant body of `ReminderEngine._tick`: compute the earliest
    `next_water` / `next_feed`, and for a due date (`date() <= now.date()`)
    emit the reminder line and advance every schedule sitting at that
    minimum whose `frequency_days` is truthy (non-zero). -/
def tickPlant (today : Int) (p : PlantRec) : TickPlantOut :=
  let water :=
    match minSome (p.watering_schedules.map WS.next_water) with
    | none => (p.watering_schedules, ([] : List String))
    | some due =>
      if dateOf due ≤ today then
        (p.watering_schedules.map (advanceWS due), [waterMsg p.name (dateOf due)])
      else (p.watering_schedules, [])
  let feed :=
    match minSome (p.nutrient_schedules.map NS.next_feed) with
    | none => (p.nutrient_schedules, ([] : List String))
    | some due =>
      if dateOf due ≤ today then
        (p.nutrient_schedules.map (advanceNS due), [feedMsg p.name (dateOf due)])
      else (p.nutrient_schedules, [])
  ⟨{ p with watering_schedules := water.1, nutrient_schedules := feed.1 },
    water.2, feed.2⟩

/-- Iterating the per-plant tick (the plant state carried across polls). -/
def tickPlantIter (today : Int) : Nat → PlantRec → PlantRec
  | 0, p => p
  | n + 1, p => tickPlantIter today n (tickPlant today p).plant

/-! ## Notification subsystem (`Notifier`, lines 283-360) -/

/-- The `Notifier` configuration, read from the `[NOTIFY]` section
    (booleans already parsed as in `cfg(...).lower() == 'true'`). -/
structure NotifierCfg where
  enabled : Bool
  email_enabled : Bool
  sms_enabled : Bool
  webhook_url : String
  email_from : String
  email_to : String
  smtp_host : String
  smtp_port : Int
  smtp_user : String
  smtp_pass : String
  tw_sid : String
  tw_token : String
  tw_from : String
  phone_to : String
deriving DecidableEq, Repr

/-- The outcome of each network transport, supplied as an oracle: SMTP
    either completes or raises; the Twilio / webhook POSTs either raise or
    return an HTTP status code. `requests_available` models whether the
    `requests` import succeeded. -/
structure NetOracle where
  smtp : Except String Unit
  sms_status : Except String Int
  webhook_status : Except String Int
  requests_available : Bool
deriving Repr

/-- One record appended by `Notifier._log` (to the text log file and, with
    the same payload, to the `NotificationLog` table). -/
structure LogRec where
  channel : String
  recipient : String
  subject : String
  body : String
  status : String
  error : Option String
deriving DecidableEq, Repr

/-- Model of `Notifier.send_email`: gate on master flag, channel flag and the SMTP
    credentials; otherwise log a `skipped` record on the `log` channel and
    return `False`. On the live path, success logs `sent`, an exception
    logs `failed` with the error text; each path appends exactly one record. -/
def sendEmail (cfg : NotifierCfg) (net : NetOracle) (subject body : String) :
    Bool × List LogRec :=
  if cfg.enabled = true ∧ cfg.email_enabled = true ∧ cfg.smtp_host ≠ "" ∧
      cfg.email_from ≠ "" ∧ cfg.email_to ≠ "" then
    match net.smtp with
    | .ok _ => (true, [⟨"email", cfg.email_to, subject, body, "sent", none⟩])
    | .error e => (false, [⟨"email", cfg.email_to, subject, body, "failed", some e⟩])
  else
    (false, [⟨"log", if cfg.email_to = "" then "(unset)" else cfg.email_to,
      subject, body, "skipped", none⟩])

/-- Model of `Notifier.send_sms`: gated on master flag, channel flag, all four
    Twilio credentials and `requests` being importable; 2xx is success. -/
def sendSms (cfg : NotifierCfg) (net : NetOracle) (body : String) :
    Bool × List LogRec :=
  if cfg.enabled = true ∧ cfg.sms_enabled = true ∧ cfg.tw_sid ≠ "" ∧
      cfg.tw_token ≠ "" ∧ cfg.tw_from ≠ "" ∧ cfg.phone_to ≠ "" ∧
      net.requests_available = true then
    match net.sms_status with
    | .ok code =>
      if code.fdiv 100 = 2 then
        (true, [⟨"sms", cfg.phone_to, "(sms)", body, "sent", none⟩])
      else
        (false, [⟨"sms", cfg.phone_to, "(sms)", body, "failed:" ++ toString code, none⟩])
    | .error e => (false, [⟨"sms", cfg.phone_to, "(sms)", body, "failed", some e⟩])
  else
    (false, [⟨"log", if cfg.phone_to = "" then "(unset)" else cfg.phone_to,
      "(sms)", body, "skipped", none⟩])

/-- Model of `Notifier.send_webhook`: gated on master flag, a configured URL and
    `requests` being importable; 2xx is success. -/
def sendWebhook (cfg : NotifierCfg) (net : NetOracle) (subject body : String) :
    Bool × List LogRec :=
  if cfg.enabled = true ∧ cfg.webhook_url ≠ "" ∧ net.requests_available = true then
    match net.webhook_status with
    | .ok code =>
      if code.fdiv 100 = 2 then
        (true, [⟨"webhook", cfg.webhook_url, subject, body, "sent", none⟩])
      else
        (false, [⟨"webhook", cfg.webhook_url, subject, body,
          "failed:" ++ toString code, none⟩])
    | .error e =>
      (false, [⟨"webhook", cfg.webhook_url, subject, body, "failed", some e⟩])
  else
    (false, [⟨"log", if cfg.webhook_url = "" then "(unset)" else cfg.webhook_url,
      subject, body, "skipped", none⟩])

/-- The two append-only notification stores: the `notifications.log` text
    file and the `NotificationLog` table; `Notifier._log` appends the same
    record to both. -/
structure NotifState where
  fileLog : List LogRec
  dbLog : List LogRec
deriving DecidableEq, Repr

/-- Append a batch of `_log` records to both stores. -/
def applyLogs (recs : List LogRec) (st : NotifState) : NotifState :=
  ⟨st.fileLog ++ recs, st.dbLog ++ recs⟩

/-- Variant of `send_email` together with its effect on the two log stores. -/
def sendEmailSt (cfg : NotifierCfg) (net : NetOracle) (subject body : String)
    (st : NotifState) : Bool × NotifState :=
  let r := sendEmail cfg net subject body
  (r.1, applyLogs r.2 st)

/-- The dispatch expression of `ReminderEngine._tick`:
    `sent = send_email(subject, body) or send_sms(body) or send_webhook(subject, body)`,
    with Python `or` short-circuiting: a later channel is invoked only when
    every earlier one returned `False`. Returns the overall result and the
    concatenated `_log` records of the channels actually invoked. -/
def notifyDispatch (cfg : NotifierCfg) (net : NetOracle) (subject body : String) :
    Bool × List LogRec :=
  let e := sendEmail cfg net subject body
  if e.1 then (true, e.2)
  else
    let s := sendSms cfg net body
    if s.1 then (true, e.2 ++ s.2)
    else
      let w := sendWebhook cfg net subject body
      (w.1, e.2 ++ s.2 ++ w.2)

/-- The email subject used by `_tick` (the literal from the source file). -/
def reminderSubject : String := "Plant Kiosk â€” Todayâ€™s reminders"

/-- Result of one full `ReminderEngine._tick`. -/
structure TickResult where
  plants : List PlantRec
  messages : List String
  sent : Bool
  logs : List LogRec
deriving DecidableEq, Repr

/-- One full `ReminderEngine._tick`: per-plant scan (water lines before
    feed lines, plants in catalogue order), then, only when at least one
    message was produced, the newline-joined body is dispatched through the
    channel chain and everything is committed; with no messages the tick
    returns `False` without dispatching. -/
def reminderTick (cfg : NotifierCfg) (net : NetOracle) (now : Int)
    (plants : List PlantRec) : TickResult :=
  let today := dateOf now
  let plants' := plants.map (fun p => (tickPlant today p).plant)
  let msgs := (plants.map (fun p => (tickPlant today p).wmsgs ++ (tickPlant today p).nmsgs)).flatten
  if msgs = [] then ⟨plants', [], false, []⟩
  else
    let body := String.intercalate "\n" msgs
    let d := notifyDispatch cfg net reminderSubject body
    ⟨plants', msgs, d.1, d.2⟩

/-! ## Shop cart and checkout (`ShopScreen`, lines 659-693) -/

/-- Lookup `session.query(Plant).get(pid)`: primary-key lookup. -/
def findPlant (db : List PlantRec) (pid : Nat) : Option PlantRec :=
  db.find? (fun p => p.id == pid)

/-- The running total of `show_cart`: `total += plant.price*qty`, skipping
    cart lines whose plant id no longer resolves (`if not plant: continue`). -/
def cartTotal (db : List PlantRec) (cart : List (Nat × Nat)) : ℚ :=
  cart.foldl
    (fun acc it =>
      match findPlant db it.1 with
      | none => acc
      | some p => acc + p.price * (it.2 : ℚ))
    0

/-- One checkout line item: `plant.inventory = max(0, plant.inventory-qty)`
    applied to the row with that primary key (ids are unique). -/
def decrementLine (db : List PlantRec) (pid : Nat) (qty : Nat) : List PlantRec :=
  db.map fun p =>
    if p.id == pid then { p with inventory := max 0 (p.inventory - (qty : Int)) } else p

/-- The `checkout` closure of `show_cart`: an empty cart only alerts and
    returns; otherwise every line item is decremented (clamped at zero),
    the session is committed and the in-memory cart is reset to `{}`. -/
def checkout (db : List PlantRec) (cart : List (Nat × Nat)) :
    List PlantRec × List (Nat × Nat) :=
  if cart = [] then (db, cart)
  else (cart.foldl (fun d it => decrementLine d it.1 it.2) db, [])

/-! ## Cloud sync pull (`SyncManager.pull`, lines 227-266) -/

/-- One remote plant payload as `pull` reads it. For each key, `none`
    means the key is absent. For `price` / `inventory` the inner layer
    records whether the `float(...)` / `int(...)` coercion succeeds
    (`some v`) or raises (`none`, leaving the prior value). For
    `safe_to_consume`, `some b` is a present key whose value has
    truthiness `b`. -/
structure RemotePlant where
  name : Option String
  profile : Option String
  species : Option String
  plant_class : Option String
  genus : Option String
  recommended_nutrition : Option String
  safe_to_consume : Option Bool
  recommended_watering : Option String
  price : Option (Option ℚ)
  inventory : Option (Option Int)
  category : Option String
deriving DecidableEq, Repr

/-- Combination `p.get(key) or row.field`: overwrite only with a present, truthy
    (non-empty) remote string; otherwise keep the local value. -/
def orTruthy (remote loc : Option String) : Option String :=
  match remote with
  | some s => if s = "" then loc else some s
  | none => loc

/-- The field-update block of `pull` (lines 241-255) applied to one row. -/
def applyRemote (p : RemotePlant) (row : PlantRec) : PlantRec :=
  let r1 := { row with profile := orTruthy p.profile row.profile }
  let r2 := { r1 with species := orTruthy p.species r1.species }
  let r3 := { r2 with plant_class := orTruthy p.plant_class r2.plant_class }
  let r4 := { r3 with genus := orTruthy p.genus r3.genus }
  let r5 :=
    { r4 with recommended_nutrition := orTruthy p.recommended_nutrition r4.recommended_nutrition }
  let r6 :=
    match p.safe_to_consume with
    | some b => { r5 with safe_to_consume := some b }
    | none => r5
  let r7 :=
    { r6 with recommended_watering := orTruthy p.recommended_watering r6.recommended_watering }
  let r8 :=
    match p.price with
    | some (some v) => { r7 with price := v }
    | some none => r7
    | none => r7
  let r9 :=
    match p.inventory with
    | some (some v) => { r8 with inventory := v }
    | some none => r8
    | none => r8
  { r9 with category := orTruthy p.category r9.category }

/-- Row `Plant(name=name)` as `pull` creates it: a fresh row before its first
    flush (unassigned nullable attributes are `None`; `price`/`inventory`
    receive their column defaults since `pull` only assigns them when the
    payload key is present). -/
def blankPlant (id : Nat) (nm : String) : PlantRec :=
  { id := id, name := nm, profile := none, species := none, plant_class := none,
    genus := none, recommended_nutrition := none, safe_to_consume := none,
    recommended_watering := none, price := 0, inventory := 0, category := none,
    images := [], knowledge := none, watering_schedules := [],
    nutrient_schedules := [] }

/-- Update via `session.query(Plant).filter_by(name=name).first()` followed by a
    mutation of that row: update the first row with the given name. -/
def updateFirst (nm : String) (f : PlantRec → PlantRec) :
    List PlantRec → List PlantRec
  | [] => []
  | p :: ps => if p.name = nm then f p :: ps else p :: updateFirst nm f ps

/-- One element of the `/plants` payload: either a JSON object, or a
    malformed element on which attribute access raises (the exception text
    is carried). -/
inductive RemoteItem where
  | obj (p : RemotePlant)
  | bad (e : String)
deriving DecidableEq, Repr

/-- The `for p in plants:` loop of `pull`, threading the session state and
    the `updated` counter; a malformed element raises out of the loop. -/
def pullApply : List RemoteItem → List PlantRec → Nat →
    Except String (List PlantRec × Nat)
  | [], db, n => .ok (db, n)
  | .bad e :: _, _, _ => .error e
  | .obj pl :: rest, db, n =>
    match pl.name with
    | none => pullApply rest db n
    | some nm =>
      if nm = "" then pullApply rest db n
      else
        let db' :=
          if db.any (fun r => r.name == nm) then updateFirst nm (applyRemote pl) db
          else (db ++ [applyRemote pl (blankPlant (db.length + 1) nm)])
        pullApply rest db' (n + 1)

/-- Model of `SyncManager.pull`: guard on the API being configured; a falsy plant
    payload (absent or empty) skips the loop; on success the session is
    committed (the new state is kept), on any exception the session is
    rolled back (the committed state is returned unchanged) and the error
    is reported in the message instead of propagating. `faqPresent` is the
    truthiness of the `/faq` payload (only the message depends on it). -/
def pull (enabled : Bool) (plantsPayload : Option (List RemoteItem))
    (faqPresent : Bool) (db : List PlantRec) : (Bool × String) × List PlantRec :=
  if enabled = false then ((false, "Cloud API not configured"), db)
  else
    let items := match plantsPayload with | none => [] | some l => l
    match pullApply items db 0 with
    | .error e => ((false, "Pull failed: " ++ e), db)
    | .ok (db', n) =>
      ((true, "Pulled " ++ toString n ++ " plants and " ++
        (if faqPresent then "FAQ" else "no FAQ")), db')

/-! ## JSON export / import (`AdminScreen`, lines 968-1036) -/

/-- One element of the JSON array written by `export_plants`: exactly the
    eleven scalar fields, all keys always present (values may be null). -/
structure ExportRec where
  name : String
  profile : Option String
  species : Option String
  plant_class : Option String
  genus : Option String
  recommended_nutrition : Option String
  safe_to_consume : Option Bool
  recommended_watering : Option String
  price : ℚ
  inventory : Int
  category : Option String
deriving DecidableEq, Repr

/-- The per-plant dictionary of `export_plants` (lines 1021-1033): note
    that neither `images` nor the `knowledge` sub-record is serialized. -/
def exportRec (p : PlantRec) : ExportRec :=
  { name := p.name, profile := p.profile, species := p.species,
    plant_class := p.plant_class, genus := p.genus,
    recommended_nutrition := p.recommended_nutrition,
    safe_to_consume := p.safe_to_consume,
    recommended_watering := p.recommended_watering,
    price := p.price, inventory := p.inventory, category := p.category }

/-- Model of `export_plants`: serialize every plant in catalogue order. -/
def exportPlants (db : List PlantRec) : List ExportRec :=
  db.map exportRec

/-- The `Plant(...)` constructed by the JSON branch of `import_plants`
    (lines 1000-1012). On a document produced by `export_plants` every key
    is present, so each `pdict.get(key, default)` returns the stored value
    (including nulls) and the defaults are dead; no images, knowledge or
    schedules are created. -/
def importedPlant (id : Nat) (r : ExportRec) : PlantRec :=
  { id := id, name := r.name, profile := r.profile, species := r.species,
    plant_class := r.plant_class, genus := r.genus,
    recommended_nutrition := r.recommended_nutrition,
    safe_to_consume := r.safe_to_consume,
    recommended_watering := r.recommended_watering,
    price := r.price, inventory := r.inventory, category := r.category,
    images := [], knowledge := none, watering_schedules := [],
    nutrient_schedules := [] }

/-- The JSON branch of `import_plants`: skip a record with a falsy name or
    a name that already exists (exact match), otherwise insert. -/
def importJson : List ExportRec → List PlantRec → List PlantRec
  | [], db => db
  | r :: rs, db =>
    if r.name = "" then importJson rs db
    else if db.any (fun p => p.name == r.name) then importJson rs db
    else importJson rs (db ++ [importedPlant (db.length + 1) r])

/-! ## Configuration bootstrap and `__main__` (lines 22-35, 1115-1123) -/

/-- The placeholder configuration template written on first run
    (lines 24-33). -/
def defaultConfigTemplate : String :=
  "[ADMIN]\nadmin_password=admin\n" ++
  "[APP]\nplant_theme=green\ntimezone=UTC\n\n" ++
  "[SERVER]\napi_base_url=\napi_token=\n\n" ++
  "[AI]\nplant_id_api_key=\n\n" ++
  "[NOTIFY]\n# global defaults used by kiosk (no per-user accounts yet)\n" ++
  "enabled=false\nemail_enabled=false\nsms_enabled=false\n" ++
  "email_from=\nemail_to=\nsmtp_host=\nsmtp_port=587\nsmtp_user=\nsmtp_pass=\n" ++
  "twilio_sid=\ntwilio_token=\ntwilio_from=\nphone_to=\n" ++
  "webhook_url=\n"

/-- What startup does, as a function of whether `config.ini` exists. -/
structure StartupOutcome where
  wroteDefaultConfig : Bool
  configText : Option String
  mainWindowOpened : Bool
deriving DecidableEq, Repr

/-- The module-level bootstrap (`if not os.path.exists(CONFIG_FILE): ...`)
    followed by `__main__`: the template is written when the file is
    absent, and `PlantKioskApp()` / `mainloop()` are then run
    unconditionally — nothing between the bootstrap and `__main__`
    returns, exits or prompts on the first-run path. -/
def startup (configExists : Bool) : StartupOutcome :=
  { wroteDefaultConfig := !configExists,
    configText := if configExists then none else some defaultConfigTemplate,
    mainWindowOpened := true }

/-! ## Concrete fixtures used by witnesses and counterexamples -/

/-- A catalogue plant with one watering schedule due at the epoch,
    weekly frequency. -/
def wPlantDue : PlantRec :=
  { id := 1, name := "Aloe", profile := none, species := none, plant_class := none,
    genus := none, recommended_nutrition := none, safe_to_consume := none,
    recommended_watering := none, price := 0, inventory := 0, category := some "General",
    images := [], knowledge := none,
    watering_schedules := [⟨some 0, 7⟩], nutrient_schedules := [] }

/-- The same plant with a zero-frequency schedule. -/
def wPlantFreq0 : PlantRec :=
  { wPlantDue with watering_schedules := [⟨some 0, 0⟩] }

/-- A plant whose only watering schedule is due ten days after the epoch. -/
def wPlantFar : PlantRec :=
  { wPlantDue with id := 2, name := "Fern", watering_schedules := [⟨some 864000, 7⟩] }

/-- A plant carrying an image list and a knowledge sub-record. -/
def richPlant : PlantRec :=
  { wPlantDue with
      id := 3
      name := "Rose"
      images := ["leaf.png"]
      watering_schedules := []
      knowledge := some ⟨some "Rosa", some "rose", none, none, none, none, none, none, none⟩ }

/-- The plant of spec property 6: inventory 3, price 9.99. -/
def wPlantC2 : PlantRec :=
  { wPlantDue with price := 9.99, inventory := 3 }

/-- A plant with stock 2, for over-purchase clamping. -/
def wPlantC3 : PlantRec :=
  { wPlantDue with id := 4, inventory := 2 }

/-- A remote payload whose only content keys are a name and a parseable
    negative inventory. -/
def negInvPayload : RemotePlant :=
  { name := some "Aloe", profile := none, species := none, plant_class := none,
    genus := none, recommended_nutrition := none, safe_to_consume := none,
    recommended_watering := none, price := none, inventory := some (some (-5)),
    category := none }

/-- A remote payload carrying `price: 12.5` and nothing else. -/
def pricePayload : RemotePlant :=
  { name := some "Aloe", profile := none, species := none, plant_class := none,
    genus := none, recommended_nutrition := none, safe_to_consume := none,
    recommended_watering := none, price := some (some 12.5), inventory := none,
    category := none }

/-- A notifier configuration with every channel disabled and no credentials. -/
def wCfgOff : NotifierCfg :=
  { enabled := false, email_enabled := false, sms_enabled := false,
    webhook_url := "", email_from := "", email_to := "", smtp_host := "",
    smtp_port := 587, smtp_user := "", smtp_pass := "", tw_sid := "",
    tw_token := "", tw_from := "", phone_to := "" }

/-- A transport oracle on which every network call would raise. -/
def wNetFail : NetOracle :=
  { smtp := .error "unreachable", sms_status := .error "unreachable",
    webhook_status := .error "unreachable", requests_available := false }

/-! ## Shared helper lemmas -/

/-- Lemma: `send_email` appends exactly one `_log` record on every path. -/
theorem sendEmail_one_log (cfg : NotifierCfg) (net : NetOracle) (subject body : String) :
    (sendEmail cfg net subject body).2.length = 1 := by
  unfold sendEmail
  split
  · cases net.smtp <;> simp
  · simp

/-- Lemma: `send_sms` appends exactly one `_log` record on every path. -/
theorem sendSms_one_log (cfg : NotifierCfg) (net : NetOracle) (body : String) :
    (sendSms cfg net body).2.length = 1 := by
  unfold sendSms
  split
  · cases net.sms_status with
    | ok code => by_cases h : code.fdiv 100 = 2 <;> simp [h]
    | error e => simp
  · simp

/-- Lemma: `send_webhook` appends exactly one `_log` record on every path. -/
theorem sendWebhook_one_log (cfg : NotifierCfg) (net : NetOracle) (subject body : String) :
    (sendWebhook cfg net subject body).2.length = 1 := by
  unfold sendWebhook
  split
  · cases net.webhook_status with
    | ok code => by_cases h : code.fdiv 100 = 2 <;> simp [h]
    | error e => simp
  · simp

/-- The `or`-chain of `_tick` in closed form: overall success is the
    disjunction, and the `_log` trace is email's record followed by sms's
    only if email failed, followed by webhook's only if both failed. -/
theorem notifyDispatch_trace (cfg : NotifierCfg) (net : NetOracle) (subject body : String) :
    notifyDispatch cfg net subject body =
      (((sendEmail cfg net subject body).1 || (sendSms cfg net body).1 ||
          (sendWebhook cfg net subject body).1),
        (sendEmail cfg net subject body).2 ++
          (if (sendEmail cfg net subject body).1 then [] else
            (sendSms cfg net body).2 ++
              (if (sendSms cfg net body).1 then [] else
                (sendWebhook cfg net subject body).2))) := by
  unfold notifyDispatch
  rcases he : (sendEmail cfg net subject body).1 <;>
    rcases hs : (sendSms cfg net body).1 <;> simp [he, hs]

/-- Lemma: `decrementLine` keeps every inventory non-negative. -/
theorem decrementLine_nonneg {db : List PlantRec} {pid qty : Nat}
    (h : ∀ p ∈ db, 0 ≤ p.inventory) :
    ∀ q ∈ decrementLine db pid qty, 0 ≤ q.inventory := by
  intro q hq
  simp only [decrementLine, List.mem_map] at hq
  obtain ⟨p, hp, rfl⟩ := hq
  split
  · exact le_max_left 0 _
  · exact h p hp

/-- Folding checkout line items over a non-negative catalogue keeps it
    non-negative. -/
theorem checkout_fold_nonneg (cart : List (Nat × Nat)) :
    ∀ db : List PlantRec, (∀ p ∈ db, 0 ≤ p.inventory) →
      ∀ q ∈ cart.foldl (fun d it => decrementLine d it.1 it.2) db, 0 ≤ q.inventory := by
  induction cart with
  | nil => intro db h; simpa using h
  | cons it rest ih =>
    intro db h
    simpa using ih (decrementLine db it.1 it.2) (decrementLine_nonneg h)

/-- Characterization of the `price` coercion in the pull field block:
    assigned only when the key is present and `float(...)` succeeds. -/
theorem applyRemote_price (p : RemotePlant) (row : PlantRec) :
    (applyRemote p row).price =
      match p.price with
      | some (some v) => v
      | _ => row.price := by
  obtain ⟨nm, prof, spc, pc, gen, rn, stc, rww, pr, inv, cat⟩ := p
  rcases stc with _ | b <;> rcases pr with _ | (_ | q0) <;>
    rcases inv with _ | (_ | n0) <;> simp [applyRemote]

/-- Characterization of the `inventory` coercion in the pull field block. -/
theorem applyRemote_inventory (p : RemotePlant) (row : PlantRec) :
    (applyRemote p row).inventory =
      match p.inventory with
      | some (some v) => v
      | _ => row.inventory := by
  obtain ⟨nm, prof, spc, pc, gen, rn, stc, rww, pr, inv, cat⟩ := p
  rcases stc with _ | b <;> rcases pr with _ | (_ | q0) <;>
    rcases inv with _ | (_ | n0) <;> simp [applyRemote]

/-- Each text field of a pulled row is the `payload or local` combination. -/
theorem applyRemote_texts (p : RemotePlant) (row : PlantRec) :
    (applyRemote p row).profile = orTruthy p.profile row.profile ∧
    (applyRemote p row).species = orTruthy p.species row.species ∧
    (applyRemote p row).plant_class = orTruthy p.plant_class row.plant_class ∧
    (applyRemote p row).genus = orTruthy p.genus row.genus ∧
    (applyRemote p row).recommended_nutrition =
      orTruthy p.recommended_nutrition row.recommended_nutrition ∧
    (applyRemote p row).recommended_watering =
      orTruthy p.recommended_watering row.recommended_watering ∧
    (applyRemote p row).category = orTruthy p.category row.category := by
  obtain ⟨nm, prof, spc, pc, gen, rn, stc, rww, pr, inv, cat⟩ := p
  rcases stc with _ | b <;> rcases pr with _ | (_ | q0) <;>
    rcases inv with _ | (_ | n0) <;> simp [applyRemote]

/-- A falsy remote string (absent key or empty value) keeps the local value. -/
theorem orTruthy_falsy {r : Option String} (l : Option String)
    (h : r = none ∨ r = some "") : orTruthy r l = l := by
  rcases h with h | h <;> simp [orTruthy, h]

/-! ## Claims -/

/-- Claim C2: for a cart mapping exactly one plant A to quantity 2, where
    A's inventory is 3 and A's price is 9.99, opening the cart displays a
    total of 19.98, and checkout sets A's inventory to 1, commits, and
    leaves the in-memory cart empty. (Python float prices are modelled as
    exact rationals; at these inputs the double-precision total also
    renders as 19.98.) -/
theorem C2_cart_total_and_checkout (p : PlantRec)
    (hp : p.price = 9.99) (hi : p.inventory = 3) :
    cartTotal [p] [(p.id, 2)] = 19.98 ∧
    checkout [p] [(p.id, 2)] = ([{ p with inventory := 1 }], []) := by
  constructor
  · simp [cartTotal, findPlant, hp]
    norm_num
  · simp [checkout, decrementLine, hi]

/-- Witness for C2 at a concrete plant. -/
theorem C2_witness :
    wPlantC2.price = 9.99 ∧ wPlantC2.inventory = 3 ∧
    (cartTotal [wPlantC2] [(wPlantC2.id, 2)] = 19.98 ∧
      checkout [wPlantC2] [(wPlantC2.id, 2)] = ([{ wPlantC2 with inventory := 1 }], [])) :=
  ⟨rfl, rfl, C2_cart_total_and_checkout wPlantC2 rfl rfl⟩

/-- Claim C7, counterexample: with the configuration document absent, the
    program writes the default template but `__main__` still constructs
    the app and enters `mainloop()` — the main window does open on that
    first run, contradicting the claim. -/
theorem C7_counterexample :
    (startup false).wroteDefaultConfig = true ∧
    (startup false).mainWindowOpened = true :=
  ⟨rfl, rfl⟩

/-- Claim C7 (amended): when the configuration document is absent at
    startup the program writes a default template with placeholder values,
    but it still proceeds to open its main application window on that
    first run (no prompt to fill in the template and restart exists). -/
theorem C7_amended_startup :
    (∀ b : Bool, (startup b).mainWindowOpened = true) ∧
    (startup false).wroteDefaultConfig = true ∧
    (startup false).configText = some defaultConfigTemplate ∧
    (startup true).wroteDefaultConfig = false :=
  ⟨fun b => by cases b <;> rfl, rfl, rfl, rfl⟩

/-- Claim C8: with every notification channel disabled, an attempted email
    send appends exactly one `status=skipped` record on the `log` channel
    to both the text log file and the `NotificationLog` table, and returns
    `False` (totally — nothing is raised). -/
theorem C8_disabled_email_skipped (cfg : NotifierCfg) (net : NetOracle)
    (subject body : String) (st : NotifState)
    (he : cfg.email_enabled = false) (_hs : cfg.sms_enabled = false)
    (_hw : cfg.webhook_url = "") :
    sendEmailSt cfg net subject body st =
      (false,
        ⟨st.fileLog ++ [⟨"log", if cfg.email_to = "" then "(unset)" else cfg.email_to,
            subject, body, "skipped", none⟩],
          st.dbLog ++ [⟨"log", if cfg.email_to = "" then "(unset)" else cfg.email_to,
            subject, body, "skipped", none⟩]⟩) := by
  simp [sendEmailSt, sendEmail, applyLogs, he]

/-- Witness for C8 at the all-disabled configuration and empty logs. -/
theorem C8_witness :
    wCfgOff.email_enabled = false ∧ wCfgOff.sms_enabled = false ∧
    wCfgOff.webhook_url = "" ∧
    sendEmailSt wCfgOff wNetFail "s" "b" ⟨[], []⟩ =
      (false,
        ⟨[] ++ [⟨"log", if wCfgOff.email_to = "" then "(unset)" else wCfgOff.email_to,
            "s", "b", "skipped", none⟩],
          [] ++ [⟨"log", if wCfgOff.email_to = "" then "(unset)" else wCfgOff.email_to,
            "s", "b", "skipped", none⟩]⟩) :=
  ⟨rfl, rfl, rfl, C8_disabled_email_skipped wCfgOff wNetFail "s" "b" ⟨[], []⟩ rfl rfl rfl⟩

/-- Claim C10: if applying the remote plant payloads raises, `pull` rolls
    the session back — the committed catalogue is returned unchanged, so
    none of the pull's partial inserts or field updates persist — and
    `(False, "Pull failed: ...")` is returned instead of propagating. -/
theorem C10_pull_rollback (items : List RemoteItem) (faq : Bool)
    (db : List PlantRec) (e : String)
    (h : pullApply items db 0 = .error e) :
    pull true (some items) faq db = ((false, "Pull failed: " ++ e), db) := by
  simp [pull, h]

/-- Witness for C10: a payload whose second element is malformed, after a
    first element that would have updated a plant, leaves the catalogue
    untouched. -/
theorem C10_witness :
    pullApply [RemoteItem.obj negInvPayload, RemoteItem.bad "AttributeError"]
        [wPlantDue] 0 = .error "AttributeError" ∧
    pull true (some [RemoteItem.obj negInvPayload, RemoteItem.bad "AttributeError"])
        false [wPlantDue] =
      ((false, "Pull failed: " ++ "AttributeError"), [wPlantDue]) :=
  ⟨rfl, C10_pull_rollback _ false _ _ rfl⟩

/-- Claim C3, counterexample: sync pull is an exposed mutating operation
    (Admin → Sync Now (Pull)), and a remote payload with `inventory: -5`
    drives a plant's inventory negative — the code assigns
    `int(p['inventory'])` with no clamp. -/
theorem C3_counterexample :
    wPlantDue.inventory = 0 ∧
    (pull true (some [RemoteItem.obj negInvPayload]) false [wPlantDue]).2.map
        PlantRec.inventory = [-5] := by
  decide

/-- Claim C3 (amended): checkout itself never drives an inventory
    negative — it sets each purchased plant's inventory to
    `max(0, inventory − quantity)` — but the invariant does not hold for
    every exposed mutating operation: sync pull (and the admin edit/merge
    paths) assign int-coerced payload values directly, so a negative
    remote inventory persists below zero. -/
theorem C3_amended_checkout_clamps (db : List PlantRec) (cart : List (Nat × Nat))
    (h : ∀ p ∈ db, 0 ≤ p.inventory) :
    (∀ q ∈ (checkout db cart).1, 0 ≤ q.inventory) ∧
    (∀ (p : PlantRec) (qty : Nat),
      checkout [p] [(p.id, qty)] =
        ([{ p with inventory := max 0 (p.inventory - (qty : Int)) }], [])) := by
  constructor
  · intro q hq
    unfold checkout at hq
    split at hq
    · exact h q hq
    · exact checkout_fold_nonneg cart db h q hq
  · intro p qty
    simp [checkout, decrementLine]

/-- Witness for C3 (amended): a quantity exceeding stock clamps at zero. -/
theorem C3_amended_witness :
    (∀ p ∈ [wPlantC3], 0 ≤ p.inventory) ∧
    (∀ q ∈ (checkout [wPlantC3] [(4, 5)]).1, 0 ≤ q.inventory) ∧
    checkout [wPlantC3] [(wPlantC3.id, 5)] =
      ([{ wPlantC3 with inventory := max 0 (wPlantC3.inventory - (5 : Int)) }], []) :=
  ⟨by decide,
    (C3_amended_checkout_clamps [wPlantC3] [(4, 5)] (by decide)).1,
    (C3_amended_checkout_clamps [wPlantC3] [(4, 5)] (by decide)).2 wPlantC3 5⟩

/-- Claim C5: in a sync pull, for an existing local row: an absent `price`
    key leaves the local price unchanged; `price: 12.5` sets it to 12.5; a
    failing `float`/`int` coercion keeps the prior value; and an absent or
    falsy (empty) remote text field never blanks the local field. -/
theorem C5_pull_defensive_field_merge (p : RemotePlant) (row : PlantRec) :
    (p.price = none → (applyRemote p row).price = row.price) ∧
    (∀ q : ℚ, p.price = some (some q) → (applyRemote p row).price = q) ∧
    (p.price = some none → (applyRemote p row).price = row.price) ∧
    (p.inventory = none → (applyRemote p row).inventory = row.inventory) ∧
    (∀ n : Int, p.inventory = some (some n) → (applyRemote p row).inventory = n) ∧
    (p.inventory = some none → (applyRemote p row).inventory = row.inventory) ∧
    ((p.profile = none ∨ p.profile = some "") →
      (applyRemote p row).profile = row.profile) ∧
    ((p.species = none ∨ p.species = some "") →
      (applyRemote p row).species = row.species) ∧
    ((p.plant_class = none ∨ p.plant_class = some "") →
      (applyRemote p row).plant_class = row.plant_class) ∧
    ((p.genus = none ∨ p.genus = some "") →
      (applyRemote p row).genus = row.genus) ∧
    ((p.recommended_nutrition = none ∨ p.recommended_nutrition = some "") →
      (applyRemote p row).recommended_nutrition = row.recommended_nutrition) ∧
    ((p.recommended_watering = none ∨ p.recommended_watering = some "") →
      (applyRemote p row).recommended_watering = row.recommended_watering) ∧
    ((p.category = none ∨ p.category = some "") →
      (applyRemote p row).category = row.category) := by
  obtain ⟨hprof, hspc, hpc, hgen, hrn, hrw, hcat⟩ := applyRemote_texts p row
  refine ⟨?_, ?_, ?_, ?_, ?_, ?_, ?_, ?_, ?_, ?_, ?_, ?_, ?_⟩
  · intro h; rw [applyRemote_price, h]
  · intro q h; rw [applyRemote_price, h]
  · intro h; rw [applyRemote_price, h]
  · intro h; rw [applyRemote_inventory, h]
  · intro n h; rw [applyRemote_inventory, h]
  · intro h; rw [applyRemote_inventory, h]
  · intro h; rw [hprof, orTruthy_falsy _ h]
  · intro h; rw [hspc, orTruthy_falsy _ h]
  · intro h; rw [hpc, orTruthy_falsy _ h]
  · intro h; rw [hgen, orTruthy_falsy _ h]
  · intro h; rw [hrn, orTruthy_falsy _ h]
  · intro h; rw [hrw, orTruthy_falsy _ h]
  · intro h; rw [hcat, orTruthy_falsy _ h]

/-- Witness for C5: the `price: 12.5` payload updates the price, while the
    payload with only a (failing-coercion free) inventory key leaves the
    price and text fields of the row alone. -/
theorem C5_witness :
    pricePayload.price = some (some 12.5) ∧
    (applyRemote pricePayload wPlantDue).price = 12.5 ∧
    negInvPayload.price = none ∧
    (applyRemote negInvPayload wPlantDue).price = wPlantDue.price ∧
    (applyRemote pricePayload wPlantDue).profile = wPlantDue.profile :=
  ⟨rfl,
    (C5_pull_defensive_field_merge pricePayload wPlantDue).2.1 12.5 rfl,
    rfl,
    (C5_pull_defensive_field_merge negInvPayload wPlantDue).1 rfl,
    (C5_pull_defensive_field_merge pricePayload wPlantDue).2.2.2.2.2.2.1 (Or.inl rfl)⟩

/-- Claim C1: for a plant with a single watering schedule whose
    `next_water` is on or before today and whose `frequency_days` is 7,
    one tick appends exactly one watering line
    `"Water <name> today (<date>)."` (the schedule's old due date) and
    advances `next_water` by exactly 7 days, while every plant whose
    earliest watering due date has not yet arrived keeps its watering
    schedules untouched. -/
theorem C1_tick_weekly_advance (today : Int) (p q : PlantRec) (ws : WS) (t : Int)
    (h1 : p.watering_schedules = [ws]) (h2 : ws.next_water = some t)
    (h3 : ws.frequency_days = 7) (h4 : dateOf t ≤ today)
    (hq : ∀ u, minSome (q.watering_schedules.map WS.next_water) = some u →
      today < dateOf u) :
    (tickPlant today p).plant.watering_schedules = [⟨some (t + 7 * 86400), 7⟩] ∧
    (tickPlant today p).wmsgs = [waterMsg p.name (dateOf t)] ∧
    (tickPlant today q).plant.watering_schedules = q.watering_schedules := by
  obtain ⟨nw, fd⟩ := ws
  simp only [WS.mk.injEq] at *
  subst h2; subst h3
  refine ⟨?_, ?_, ?_⟩
  · simp [tickPlant, h1, minSome, h4, advanceWS]
  · simp [tickPlant, h1, minSome, h4]
  · rcases hmin : minSome (q.watering_schedules.map WS.next_water) with _ | u
    · simp [tickPlant, hmin]
    · have hu := hq u hmin
      simp [tickPlant, hmin, not_le.mpr hu]

/-- Witness for C1 at the epoch: the weekly schedule advances by 604800
    seconds, and the ten-days-out plant is untouched. -/
theorem C1_witness :
    wPlantDue.watering_schedules = [⟨some 0, 7⟩] ∧
    dateOf 0 ≤ 0 ∧
    ((tickPlant 0 wPlantDue).plant.watering_schedules = [⟨some (0 + 7 * 86400), 7⟩] ∧
      (tickPlant 0 wPlantDue).wmsgs = [waterMsg wPlantDue.name (dateOf 0)] ∧
      (tickPlant 0 wPlantFar).plant.watering_schedules = wPlantFar.watering_schedules) :=
  ⟨rfl, by decide,
    C1_tick_weekly_advance 0 wPlantDue wPlantFar ⟨some 0, 7⟩ 0 rfl rfl rfl (by decide)
      (by intro u hu; simp [wPlantFar, wPlantDue, minSome] at hu; subst hu; decide)⟩

/-- Claim C4: a single watering schedule with `frequency_days = 0` and a
    due `next_water` makes the tick emit the watering line while leaving
    the schedule (and the plant) unchanged — `0` is falsy in the
    `and ws.frequency_days` guard — so every subsequent tick emits the
    identical reminder indefinitely; more generally a plant all of whose
    watering schedules have zero frequency never has them advanced. -/
theorem C4_tick_zero_frequency (today : Int) (p q : PlantRec) (ws : WS) (t : Int)
    (h1 : p.watering_schedules = [ws]) (h2 : ws.next_water = some t)
    (h3 : ws.frequency_days = 0) (h4 : dateOf t ≤ today)
    (h5 : p.nutrient_schedules = [])
    (hq : ∀ w ∈ q.watering_schedules, w.frequency_days = 0) :
    (tickPlant today p).plant = p ∧
    (tickPlant today p).wmsgs = [waterMsg p.name (dateOf t)] ∧
    (∀ n : Nat, tickPlantIter today n p = p) ∧
    (tickPlant today q).plant.watering_schedules = q.watering_schedules := by
  obtain ⟨nw, fd⟩ := ws
  simp only [WS.mk.injEq] at *
  subst h2; subst h3
  have hfix : (tickPlant today p).plant = p := by
    have : p.watering_schedules.map (advanceWS t) = p.watering_schedules := by
      rw [h1]; simp [advanceWS]
    simp [tickPlant, h1, h5, minSome, h4, advanceWS]
    rw [← h1, ← h5]
  refine ⟨hfix, ?_, ?_, ?_⟩
  · simp [tickPlant, h1, minSome, h4]
  · intro n
    induction n with
    | zero => rfl
    | succ k ih => rw [tickPlantIter, hfix, ih]
  · have hmap : ∀ u : Int, q.watering_schedules.map (advanceWS u) = q.watering_schedules := by
      intro u
      have : ∀ l : List WS, (∀ w ∈ l, w.frequency_days = 0) → l.map (advanceWS u) = l := by
        intro l
        induction l with
        | nil => intro _; rfl
        | cons a as ih =>
          intro hl
          have ha : advanceWS u a = a := by
            simp [advanceWS, hl a (List.mem_cons_self a as)]
          simp only [List.map_cons, ha]
          rw [ih (fun w hw => hl w (List.mem_cons_of_mem a hw))]
      exact this q.watering_schedules hq
    rcases hmin : minSome (q.watering_schedules.map WS.next_water) with _ | u
    · simp [tickPlant, hmin]
    · by_cases hdue : dateOf u ≤ today
      · simp [tickPlant, hmin, hdue, hmap u]
      · simp [tickPlant, hmin, hdue]

/-- Witness for C4: the zero-frequency plant is a fixed point of the tick
    and emits the same line on ticks 0 through 5. -/
theorem C4_witness :
    wPlantFreq0.watering_schedules = [⟨some 0, 0⟩] ∧
    ((tickPlant 0 wPlantFreq0).plant = wPlantFreq0 ∧
      (tickPlant 0 wPlantFreq0).wmsgs = [waterMsg wPlantFreq0.name (dateOf 0)] ∧
      (∀ n : Nat, tickPlantIter 0 n wPlantFreq0 = wPlantFreq0) ∧
      (tickPlant 0 wPlantFreq0).plant.watering_schedules =
        wPlantFreq0.watering_schedules) :=
  ⟨rfl,
    C4_tick_zero_frequency 0 wPlantFreq0 wPlantFreq0 ⟨some 0, 0⟩ 0 rfl rfl rfl
      (by decide) rfl (by intro w hw; simp [wPlantFreq0, wPlantDue] at hw; rw [hw])⟩

/-- Claim C9: whenever a tick produces at least one reminder line, the
    dispatch trace is: email's single log record first; SMS's single
    record appears exactly when email reported failure; webhook's single
    record exactly when both reported failure (the `or` chain
    short-circuits), and the tick's overall result is their disjunction. -/
theorem C9_dispatch_channel_order (cfg : NotifierCfg) (net : NetOracle) (now : Int)
    (plants : List PlantRec)
    (hm : (reminderTick cfg net now plants).messages ≠ []) :
    (reminderTick cfg net now plants).logs =
      (sendEmail cfg net reminderSubject
          (String.intercalate "\n" (reminderTick cfg net now plants).messages)).2 ++
        (if (sendEmail cfg net reminderSubject
            (String.intercalate "\n" (reminderTick cfg net now plants).messages)).1 then []
         else
          (sendSms cfg net
              (String.intercalate "\n" (reminderTick cfg net now plants).messages)).2 ++
            (if (sendSms cfg net
                (String.intercalate "\n" (reminderTick cfg net now plants).messages)).1 then []
             else
              (sendWebhook cfg net reminderSubject
                  (String.intercalate "\n" (reminderTick cfg net now plants).messages)).2)) ∧
    (reminderTick cfg net now plants).sent =
      ((sendEmail cfg net reminderSubject
          (String.intercalate "\n" (reminderTick cfg net now plants).messages)).1 ||
        (sendSms cfg net
          (String.intercalate "\n" (reminderTick cfg net now plants).messages)).1 ||
        (sendWebhook cfg net reminderSubject
          (String.intercalate "\n" (reminderTick cfg net now plants).messages)).1) ∧
    (∀ subject body : String, (sendEmail cfg net subject body).2.length = 1) ∧
    (∀ body : String, (sendSms cfg net body).2.length = 1) ∧
    (∀ subject body : String, (sendWebhook cfg net subject body).2.length = 1) := by
  simp only [reminderTick] at hm ⊢
  by_cases h :
      (plants.map (fun p =>
        (tickPlant (dateOf now) p).wmsgs ++ (tickPlant (dateOf now) p).nmsgs)).flatten = []
  · simp [h] at hm
  · simp only [if_neg h]
    rw [notifyDispatch_trace]
    exact ⟨rfl, rfl, fun s b => sendEmail_one_log cfg net s b,
      fun b => sendSms_one_log cfg net b, fun s b => sendWebhook_one_log cfg net s b⟩

/-- Witness for C9: with every channel disabled, a due plant's tick tries
    email, then SMS, then webhook — three `skipped` records in that
    order — and reports failure. -/
theorem C9_witness :
    (reminderTick wCfgOff wNetFail 0 [wPlantDue]).messages ≠ [] ∧
    ((reminderTick wCfgOff wNetFail 0 [wPlantDue]).logs =
      (sendEmail wCfgOff wNetFail reminderSubject
          (String.intercalate "\n" (reminderTick wCfgOff wNetFail 0 [wPlantDue]).messages)).2 ++
        (if (sendEmail wCfgOff wNetFail reminderSubject
            (String.intercalate "\n" (reminderTick wCfgOff wNetFail 0 [wPlantDue]).messages)).1 then []
         else
          (sendSms wCfgOff wNetFail
              (String.intercalate "\n" (reminderTick wCfgOff wNetFail 0 [wPlantDue]).messages)).2 ++
            (if (sendSms wCfgOff wNetFail
                (String.intercalate "\n" (reminderTick wCfgOff wNetFail 0 [wPlantDue]).messages)).1 then []
             else
              (sendWebhook wCfgOff wNetFail reminderSubject
                  (String.intercalate "\n"
                    (reminderTick wCfgOff wNetFail 0 [wPlantDue]).messages)).2)) ∧
      (reminderTick wCfgOff wNetFail 0 [wPlantDue]).sent =
        ((sendEmail wCfgOff wNetFail reminderSubject
            (String.intercalate "\n" (reminderTick wCfgOff wNetFail 0 [wPlantDue]).messages)).1 ||
          (sendSms wCfgOff wNetFail
            (String.intercalate "\n" (reminderTick wCfgOff wNetFail 0 [wPlantDue]).messages)).1 ||
          (sendWebhook wCfgOff wNetFail reminderSubject
            (String.intercalate "\n" (reminderTick wCfgOff wNetFail 0 [wPlantDue]).messages)).1) ∧
      (∀ subject body : String, (sendEmail wCfgOff wNetFail subject body).2.length = 1) ∧
      (∀ body : String, (sendSms wCfgOff wNetFail body).2.length = 1) ∧
      (∀ subject body : String,
        (sendWebhook wCfgOff wNetFail subject body).2.length = 1)) :=
  ⟨by decide, C9_dispatch_channel_order wCfgOff wNetFail 0 [wPlantDue] (by decide)⟩

/-- A freshly imported record exports back to itself. -/
theorem exportRec_importedPlant (i : Nat) (r : ExportRec) :
    exportRec (importedPlant i r) = r := rfl

/-- The JSON import inserts every record of a batch whose names are
    non-empty, duplicate-free, and absent from the accumulator — no
    record is rejected and the scalar fields come through verbatim. -/
theorem importJson_fresh (recs : List ExportRec) :
    ∀ acc : List PlantRec, (∀ r ∈ recs, r.name ≠ "") →
      (recs.map ExportRec.name).Nodup →
      (∀ r ∈ recs, ∀ p ∈ acc, p.name ≠ r.name) →
      (importJson recs acc).map exportRec = acc.map exportRec ++ recs ∧
      (importJson recs acc).length = acc.length + recs.length := by
  induction recs with
  | nil => intro acc _ _ _; simp [importJson]
  | cons r rs ih =>
    intro acc h1 h2 h3
    have hr : ¬r.name = "" := h1 r (List.mem_cons_self r rs)
    have hany : (acc.any fun p => p.name == r.name) = false := by
      rw [List.any_eq_false]
      intro p hp
      simpa using h3 r (List.mem_cons_self r rs) p hp
    rw [importJson, if_neg hr, hany]
    simp only [Bool.false_eq_true, if_false]
    have hnodup := h2
    simp only [List.map_cons, List.nodup_cons] at hnodup
    have step := ih (acc ++ [importedPlant (acc.length + 1) r])
      (fun r' hr' => h1 r' (List.mem_cons_of_mem r hr'))
      hnodup.2
      (by
        intro r' hr' p hp
        rcases List.mem_append.mp hp with hp | hp
        · exact h3 r' (List.mem_cons_of_mem r hr') p hp
        · have : p = importedPlant (acc.length + 1) r := by simpa using hp
          subst this
          intro hcontra
          exact hnodup.1 (by
            rw [show (importedPlant (acc.length + 1) r).name = r.name from rfl] at hcontra
            rw [hcontra]
            exact List.mem_map_of_mem ExportRec.name hr'))
    refine ⟨?_, ?_⟩
    · rw [step.1]
      simp [exportRec_importedPlant]
    · rw [step.2]
      simp
      omega

/-- Claim C6, counterexample: a plant carrying an image path list and a
    knowledge sub-record loses both across export → import into an empty
    catalogue, because `export_plants` serializes neither. -/
theorem C6_counterexample :
    richPlant.images = ["leaf.png"] ∧
    richPlant.knowledge ≠ none ∧
    (importJson (exportPlants [richPlant]) []).map PlantRec.images = [[]] ∧
    (importJson (exportPlants [richPlant]) []).map PlantRec.knowledge = [none] := by
  refine ⟨rfl, ?_, rfl, rfl⟩
  simp [richPlant, wPlantDue]

/-- Claim C6 (amended): exporting the full catalogue to JSON and
    re-importing into an empty catalogue reproduces every plant's eleven
    scalar fields exactly and rejects no record (names are unique and
    non-empty by construction), but image path lists and knowledge
    sub-records are not serialized by the export and so are not
    reproduced. -/
theorem C6_amended_roundtrip (db : List PlantRec)
    (h1 : ∀ p ∈ db, p.name ≠ "") (h2 : (db.map PlantRec.name).Nodup) :
    (importJson (exportPlants db) []).map exportRec = db.map exportRec ∧
    (importJson (exportPlants db) []).length = db.length := by
  have hnames : (exportPlants db).map ExportRec.name = db.map PlantRec.name := by
    simp [exportPlants, exportRec, Function.comp]
  have step := importJson_fresh (exportPlants db) []
    (by
      intro r hr
      obtain ⟨p, hp, rfl⟩ := List.mem_map.mp hr
      exact h1 p hp)
    (by rw [hnames]; exact h2)
    (by simp)
  simpa [exportPlants] using step

/-- Witness for C6 (amended) on a two-plant catalogue. -/
theorem C6_amended_witness :
    (∀ p ∈ [wPlantC2, richPlant], p.name ≠ "") ∧
    (([wPlantC2, richPlant].map PlantRec.name).Nodup) ∧
    ((importJson (exportPlants [wPlantC2, richPlant]) []).map exportRec =
        [wPlantC2, richPlant].map exportRec ∧
      (importJson (exportPlants [wPlantC2, richPlant]) []).length = 2) :=
  ⟨by decide, by decide,
    C6_amended_roundtrip [wPlantC2, richPlant] (by decide) (by decide)⟩

end PlantKiosk
